import Mathlib

/-! Shallow embedding of go-city-distance (src/city-distance.go).

The Go program resolves two place names through the Google geocoding API and
reports the haversine distance between them.  float64 arithmetic is modelled
over the exact reals; the HTTP/JSON layer of a lookup is abstracted as a
`ProviderOutcome` (transport failure, decode failure, or a decoded response),
and the rest of `GetLocation`, the fan-in of `GetDistance`, and the `main`
flag handling are translated directly from the source. -/

/-- Source constant `GOOGLE_API` (line 14). -/
def GOOGLE_API : String := "https://maps.googleapis.com/maps/api/geocode/json"

/-- Source constant `EARTH_RADIUS = 6371 // km` (line 16). -/
noncomputable def EARTH_RADIUS : ℝ := 6371

/-- Source `type Degree float64` (line 26); float64 modelled as ℝ. -/
abbrev Degree : Type := ℝ

/-- Source `func (d Degree) GetRadians() float64` (lines 72-74):
`float64(d) * math.Pi / 180.0`. -/
noncomputable def Degree.GetRadians (d : Degree) : ℝ := d * Real.pi / 180

/-- Source struct `Location` (lines 28-32). -/
structure Location where
  Lat : Degree
  Lng : Degree
  Address : String

/-- Source struct `GeoLocation` (lines 35-38). -/
structure GeoLocation where
  Lat : Degree
  Lng : Degree

/-- Source struct `GeoLocationViewPort` (lines 40-43). -/
structure GeoLocationViewPort where
  Northeast : GeoLocation
  Southwest : GeoLocation

/-- Source struct `Geometry` (lines 45-50). -/
structure Geometry where
  Location : GeoLocation
  LocationType : String
  Viewport : GeoLocationViewPort
  Bounds : GeoLocationViewPort

/-- Source struct `AddressComponent` (lines 52-56). -/
structure AddressComponent where
  Longname : String
  Shortname : String
  Types : List String

/-- Source struct `GoogleGeoResult` (lines 58-63). -/
structure GoogleGeoResult where
  AddressComponents : List AddressComponent
  FormattedAddress : String
  Geometry : Geometry
  Types : List String

/-- Source struct `GoogleGeoAPIResponse` (lines 65-68). -/
structure GoogleGeoAPIResponse where
  Status : String
  Results : List GoogleGeoResult

/-- A Go `error` value produced inside `GetLocation`: either the error of
`http.Get` (transport) or of `json.Decoder.Decode` (decode). -/
inductive GoError where
  | transport (msg : String)
  | decode (msg : String)
deriving DecidableEq

/-- The observable outcome of the HTTP + JSON layer of one `GetLocation`
call: `http.Get` fails, `Decode` fails, or a `GoogleGeoAPIResponse` is
decoded. -/
inductive ProviderOutcome where
  | transportError (msg : String)
  | decodeError (msg : String)
  | response (r : GoogleGeoAPIResponse)

/-- Source `GetLocation` (lines 77-109), after the wire layer: transport
error is returned (line 87), decode error is returned (line 96), an empty
`Results` list returns `(nil, nil)` (lines 99-101), and otherwise the
location is built from `Results[0]` (lines 103-107). -/
def GetLocation (o : ProviderOutcome) : Except GoError (Option Location) :=
  match o with
  | .transportError msg => .error (.transport msg)
  | .decodeError msg => .error (.decode msg)
  | .response r =>
    match r.Results with
    | [] => .ok none
    | first :: _ =>
      .ok (some ⟨first.Geometry.Location.Lat, first.Geometry.Location.Lng,
        first.FormattedAddress⟩)

/-- Go's `math.Atan2` over the reals (the standard two-argument
arctangent, sign conventions of the C/Go library). -/
noncomputable def atan2 (y x : ℝ) : ℝ :=
  if 0 < x then Real.arctan (y / x)
  else if x = 0 then
    (if 0 < y then Real.pi / 2 else if y < 0 then -(Real.pi / 2) else 0)
  else
    (if 0 ≤ y then Real.arctan (y / x) + Real.pi
     else Real.arctan (y / x) - Real.pi)

/-- The intermediate `a` of `geoDistance` (lines 148-150):
`Sin(deltaphi/2)*Sin(deltaphi/2) + Cos(phi1)*Cos(phi2)*Sin(deltalambda/2)*Sin(deltalambda/2)`. -/
noncomputable def hav_a (loc1 loc2 : Location) : ℝ :=
  Real.sin (Degree.GetRadians (loc1.Lat - loc2.Lat) / 2) *
      Real.sin (Degree.GetRadians (loc1.Lat - loc2.Lat) / 2) +
    Real.cos (Degree.GetRadians loc1.Lat) * Real.cos (Degree.GetRadians loc2.Lat) *
      Real.sin (Degree.GetRadians (loc1.Lng - loc2.Lng) / 2) *
      Real.sin (Degree.GetRadians (loc1.Lng - loc2.Lng) / 2)

/-- Source `geoDistance` (lines 141-155), with the source's locals. -/
noncomputable def geoDistance (loc1 loc2 : Location) : ℝ :=
  let phi1 := Degree.GetRadians loc1.Lat
  let phi2 := Degree.GetRadians loc2.Lat
  let deltaphi := Degree.GetRadians (loc1.Lat - loc2.Lat)
  let deltalambda := Degree.GetRadians (loc1.Lng - loc2.Lng)
  let a := Real.sin (deltaphi / 2) * Real.sin (deltaphi / 2) +
    Real.cos phi1 * Real.cos phi2 * Real.sin (deltalambda / 2) *
      Real.sin (deltalambda / 2)
  let c := 2 * atan2 (Real.sqrt a) (Real.sqrt (1 - a))
  EARTH_RADIUS * c

/-- Source `KM2Miles` (lines 137-139). -/
noncomputable def KM2Miles (dist : ℝ) : ℝ := dist * 0.621371192

/-- Outcome of `GetDistance`'s fan-in (lines 123-133): either the normal
`(dist, nil)` return, or the runtime nil-pointer dereference that
`*locations[i]` (line 127) raises when a lookup produced no location. -/
inductive GetDistanceResult where
  | ok (d : ℝ)
  | nilPanic

/-- The goroutine body (lines 117-120) drops the error of `GetLocation`
(`loc, _ := g.GetLocation(q)`) and sends only the possibly-nil location. -/
def discardErr (r : Except GoError (Option Location)) : Option Location :=
  match r with
  | .ok loc => loc
  | .error _ => none

/-- The join of `GetDistance` (lines 123-133) applied to the two collected
channel values: with both locations present it computes
`geoDistance(*locations[0], *locations[1])` and dispatches on the unit
(lines 127-131); with either location nil, evaluating `*locations[i]`
panics before `geoDistance` is entered. -/
noncomputable def joinAndCompute (l1 l2 : Option Location) (unit : String) :
    GetDistanceResult :=
  match l1, l2 with
  | some a, some b =>
    let dist := geoDistance a b
    if unit = "miles" then .ok (KM2Miles dist) else .ok dist
  | _, _ => .nilPanic

/-- The argument pairs on which the join actually enters `geoDistance`:
empty whenever either collected location is nil (the dereference panics
while evaluating the arguments, so `geoDistance` is never invoked). -/
def geoDistanceCallArgs (l1 l2 : Option Location) : List (Location × Location) :=
  match l1, l2 with
  | some a, some b => [(a, b)]
  | _, _ => []

/-- Source `GetDistance` (lines 111-135) end to end: each lookup's outcome
is reduced by the goroutine (error dropped), and the two results are
joined. -/
noncomputable def runGetDistance (p1 p2 : ProviderOutcome) (unit : String) :
    GetDistanceResult :=
  joinAndCompute (discardErr (GetLocation p1)) (discardErr (GetLocation p2)) unit

/-- One byte of Go's `url.QueryEscape`: alphanumerics and `-_.~` are kept,
a space becomes `+`, anything else becomes `%` and two uppercase hex
digits. -/
def escapeByte (b : Nat) : List Char :=
  if b = 32 then ['+']
  else if (65 ≤ b ∧ b ≤ 90) ∨ (97 ≤ b ∧ b ≤ 122) ∨ (48 ≤ b ∧ b ≤ 57) ∨
      b = 45 ∨ b = 95 ∨ b = 46 ∨ b = 126 then
    [Char.ofNat b]
  else
    ['%', (if b / 16 % 16 < 10 then Char.ofNat (48 + b / 16 % 16)
           else Char.ofNat (55 + b / 16 % 16)),
          (if b % 16 < 10 then Char.ofNat (48 + b % 16)
           else Char.ofNat (55 + b % 16))]

/-- Go's `url.QueryEscape` over the query's UTF-8 bytes. -/
def queryEscape (s : String) : String :=
  ⟨(s.toUTF8.toList.map (fun b => escapeByte b.toNat)).flatten⟩

/-- The `request_url` built by `GetLocation` (lines 78-82): base URL with
`sensor=false` and the escaped `address`, plus `&key=` exactly when
`len(g.APIKey) > 0`. -/
def requestURL (apiKey q : String) : String :=
  let request_url := GOOGLE_API ++ "?sensor=false&address=" ++ queryEscape q
  if 0 < apiKey.length then request_url ++ "&key=" ++ apiKey else request_url

/-- What one run of `main` (lines 157-202) does before/around the lookup:
whether usage was printed, the exit code (`none` when the process goes on
to the lookup and its code depends on the lookup's outcome), and whether a
geocode lookup is performed. -/
structure CLIOutcome where
  exitCode : Option Nat
  usagePrinted : Bool
  lookupPerformed : Bool
deriving DecidableEq

/-- Source `main` control flow (lines 173-195): first the unit flag is
validated (`*unit != "km" && *unit != "miles"` prints usage and exits 1,
lines 175-178), then `--help` prints usage and returns with status 0
(lines 180-183), then fewer than 3 `os.Args` prints usage and exits 1
(lines 185-188), and otherwise the two place names are looked up. -/
def mainModel (unit : String) (flHelp : Bool) (argc : Nat) : CLIOutcome :=
  if unit ≠ "km" ∧ unit ≠ "miles" then ⟨some 1, true, false⟩
  else if flHelp then ⟨some 0, true, false⟩
  else if argc < 3 then ⟨some 1, true, false⟩
  else ⟨none, false, true⟩

/-- The haversine distance exactly as the specification words it, steps 1-5
of the algorithm, for comparison with `geoDistance`. -/
noncomputable def haversineSpec (lat_a lng_a lat_b lng_b : ℝ) : ℝ :=
  let phi1 := lat_a * Real.pi / 180
  let phi2 := lat_b * Real.pi / 180
  let dphi := (lat_a - lat_b) * Real.pi / 180
  let dlambda := (lng_a - lng_b) * Real.pi / 180
  let a := Real.sin (dphi / 2) ^ 2 +
    Real.cos phi1 * Real.cos phi2 * Real.sin (dlambda / 2) ^ 2
  let c := 2 * atan2 (Real.sqrt a) (Real.sqrt (1 - a))
  6371 * c

/-- A concrete decoded candidate for London, used by witnesses. -/
noncomputable def londonResult : GoogleGeoResult :=
  ⟨[], "London, UK",
    ⟨⟨51.5074, -0.1278⟩, "APPROXIMATE", ⟨⟨0, 0⟩, ⟨0, 0⟩⟩, ⟨⟨0, 0⟩, ⟨0, 0⟩⟩⟩, []⟩

/-- A concrete decoded candidate for Paris, used by witnesses. -/
noncomputable def parisResult : GoogleGeoResult :=
  ⟨[], "Paris, France",
    ⟨⟨48.8566, 2.3522⟩, "APPROXIMATE", ⟨⟨0, 0⟩, ⟨0, 0⟩⟩, ⟨⟨0, 0⟩, ⟨0, 0⟩⟩⟩, []⟩

/-- `geoDistance` written through `hav_a` (definitional). -/
theorem geoDistance_def (loc1 loc2 : Location) :
    geoDistance loc1 loc2 =
      EARTH_RADIUS *
        (2 * atan2 (Real.sqrt (hav_a loc1 loc2))
          (Real.sqrt (1 - hav_a loc1 loc2))) := rfl

/-- The haversine intermediate `a` is symmetric in the two locations. -/
theorem hav_a_symm (a b : Location) : hav_a a b = hav_a b a := by
  unfold hav_a Degree.GetRadians
  have e1 : (b.Lat - a.Lat) * Real.pi / 180 / 2 =
      -((a.Lat - b.Lat) * Real.pi / 180 / 2) := by ring
  have e2 : (b.Lng - a.Lng) * Real.pi / 180 / 2 =
      -((a.Lng - b.Lng) * Real.pi / 180 / 2) := by ring
  rw [e1, e2, Real.sin_neg, Real.sin_neg]
  ring

/-- C6: the distance computation is symmetric: `geoDistance(A, B)` equals
`geoDistance(B, A)` for every pair of coordinates. -/
theorem geoDistance_symm (a b : Location) : geoDistance a b = geoDistance b a := by
  rw [geoDistance_def, geoDistance_def, hav_a_symm]

/-- C3: `geoDistance` computes exactly the haversine formula of the
specification on a sphere of radius 6371 km. -/
theorem geoDistance_eq_haversineSpec (loc1 loc2 : Location) :
    geoDistance loc1 loc2 = haversineSpec loc1.Lat loc1.Lng loc2.Lat loc2.Lng := by
  have h : hav_a loc1 loc2 =
      Real.sin ((loc1.Lat - loc2.Lat) * Real.pi / 180 / 2) ^ 2 +
        Real.cos (loc1.Lat * Real.pi / 180) * Real.cos (loc2.Lat * Real.pi / 180) *
          Real.sin ((loc1.Lng - loc2.Lng) * Real.pi / 180 / 2) ^ 2 := by
    unfold hav_a Degree.GetRadians
    ring
  rw [geoDistance_def, h]
  rfl

/-- C5: for every pair of coordinates, the distance reported in miles is
the distance reported in kilometers multiplied by the fixed constant
0.621371192. -/
theorem miles_is_km_times_const (l1 l2 : Location) :
    joinAndCompute (some l1) (some l2) "miles" =
      GetDistanceResult.ok (geoDistance l1 l2 * 0.621371192) ∧
    joinAndCompute (some l1) (some l2) "km" =
      GetDistanceResult.ok (geoDistance l1 l2) :=
  ⟨rfl, rfl⟩

/-- C7: when the provider response parses, an empty candidate list yields
`(nil, nil)` (NotFound, no error), and a non-empty list yields a location
built from the first candidate's latitude, longitude, and formatted
address, with no error. -/
theorem getLocation_first_candidate (status : String) (r : GoogleGeoResult)
    (rest : List GoogleGeoResult) :
    GetLocation (ProviderOutcome.response ⟨status, []⟩) = Except.ok none ∧
    GetLocation (ProviderOutcome.response ⟨status, r :: rest⟩) =
      Except.ok (some ⟨r.Geometry.Location.Lat, r.Geometry.Location.Lng,
        r.FormattedAddress⟩) :=
  ⟨rfl, rfl⟩

/-- C1: if either lookup yields NotFound, the run of `GetDistance` ends in
the nil-dereference fault and `geoDistance` is never entered (the list of
argument pairs it is invoked on is empty). -/
theorem notFound_aborts (p1 p2 : ProviderOutcome) (unit : String)
    (h : GetLocation p1 = Except.ok none ∨ GetLocation p2 = Except.ok none) :
    runGetDistance p1 p2 unit = GetDistanceResult.nilPanic ∧
    geoDistanceCallArgs (discardErr (GetLocation p1))
      (discardErr (GetLocation p2)) = [] := by
  unfold runGetDistance
  rcases h with h | h
  · rw [h]
    cases discardErr (GetLocation p2) <;> exact ⟨rfl, rfl⟩
  · rw [h]
    cases discardErr (GetLocation p1) <;> exact ⟨rfl, rfl⟩

/-- Witness for C1 at a concrete empty-results response paired with a
second empty-results response. -/
theorem notFound_aborts_witness :
    (GetLocation (ProviderOutcome.response ⟨"ZERO_RESULTS", []⟩) = Except.ok none ∨
      GetLocation (ProviderOutcome.response ⟨"OK", []⟩) = Except.ok none) ∧
    (runGetDistance (ProviderOutcome.response ⟨"ZERO_RESULTS", []⟩)
        (ProviderOutcome.response ⟨"OK", []⟩) "km" = GetDistanceResult.nilPanic ∧
      geoDistanceCallArgs
        (discardErr (GetLocation (ProviderOutcome.response ⟨"ZERO_RESULTS", []⟩)))
        (discardErr (GetLocation (ProviderOutcome.response ⟨"OK", []⟩))) = []) :=
  ⟨Or.inl rfl, notFound_aborts _ _ _ (Or.inl rfl)⟩

/-- C2 (code defect): a transport error from the first lookup is returned
by `GetLocation`, but the goroutine discards it (`loc, _ :=`), so the run
ends in the nil-dereference fault instead of propagating the error — the
`GetDistanceResult` type records that `GetDistance` has no error-carrying
outcome at all: every `return` in its source passes a nil error. -/
theorem transport_error_dropped :
    GetLocation (ProviderOutcome.transportError "connection refused") =
      Except.error (GoError.transport "connection refused") ∧
    discardErr (GetLocation (ProviderOutcome.transportError "connection refused")) =
      none ∧
    runGetDistance (ProviderOutcome.transportError "connection refused")
      (ProviderOutcome.response ⟨"OK", [parisResult]⟩) "km" =
        GetDistanceResult.nilPanic :=
  ⟨rfl, rfl, rfl⟩

/-- C10: with both lookups resolved, any unit string other than "miles"
falls through to the kilometers result; the core performs no unit
validation. -/
theorem unit_fallthrough_km (p1 p2 : ProviderOutcome) (l1 l2 : Location)
    (unit : String)
    (h1 : GetLocation p1 = Except.ok (some l1))
    (h2 : GetLocation p2 = Except.ok (some l2))
    (hu : unit ≠ "miles") :
    runGetDistance p1 p2 unit = GetDistanceResult.ok (geoDistance l1 l2) := by
  unfold runGetDistance
  rw [h1, h2]
  show (if unit = "miles" then GetDistanceResult.ok (KM2Miles (geoDistance l1 l2))
    else GetDistanceResult.ok (geoDistance l1 l2)) =
      GetDistanceResult.ok (geoDistance l1 l2)
  rw [if_neg hu]

/-- Witness for C10: two one-candidate responses and the unrecognized unit
string "furlongs" produce the kilometers distance. -/
theorem unit_fallthrough_km_witness :
    GetLocation (ProviderOutcome.response ⟨"OK", [londonResult]⟩) =
      Except.ok (some ⟨51.5074, -0.1278, "London, UK"⟩) ∧
    GetLocation (ProviderOutcome.response ⟨"OK", [parisResult]⟩) =
      Except.ok (some ⟨48.8566, 2.3522, "Paris, France"⟩) ∧
    ("furlongs" : String) ≠ "miles" ∧
    runGetDistance (ProviderOutcome.response ⟨"OK", [londonResult]⟩)
      (ProviderOutcome.response ⟨"OK", [parisResult]⟩) "furlongs" =
        GetDistanceResult.ok (geoDistance ⟨51.5074, -0.1278, "London, UK"⟩
          ⟨48.8566, 2.3522, "Paris, France"⟩) :=
  ⟨rfl, rfl, by decide, unit_fallthrough_km _ _ _ _ _ rfl rfl (by decide)⟩

/-- A nonempty string has positive length. -/
theorem length_pos_of_ne_empty (s : String) (h : s ≠ "") : 0 < s.length := by
  cases s with
  | mk data =>
    cases data with
    | nil => exact absurd rfl h
    | cons c cs => simp [String.length]

/-- C8: the request URL targets the geocoding endpoint with `sensor=false`
and the URL-escaped query as `address`, and the `key` parameter is
appended exactly when the API key is non-empty. -/
theorem requestURL_params (q apiKey : String) :
    (apiKey = "" → requestURL apiKey q =
      GOOGLE_API ++ "?sensor=false&address=" ++ queryEscape q) ∧
    (apiKey ≠ "" → requestURL apiKey q =
      GOOGLE_API ++ "?sensor=false&address=" ++ queryEscape q ++ "&key=" ++ apiKey) := by
  constructor
  · intro h
    subst h
    rfl
  · intro h
    simp only [requestURL]
    rw [if_pos (length_pos_of_ne_empty apiKey h)]

/-- Witness for C8 at the query "New York" with an empty and with a
non-empty API key. -/
theorem requestURL_params_witness :
    requestURL "" "New York" =
      GOOGLE_API ++ "?sensor=false&address=" ++ queryEscape "New York" ∧
    requestURL "SECRET" "New York" =
      GOOGLE_API ++ "?sensor=false&address=" ++ queryEscape "New York" ++
        "&key=" ++ "SECRET" :=
  ⟨(requestURL_params "New York" "").1 rfl,
    (requestURL_params "New York" "SECRET").2 (by decide)⟩

/-- C9 counterexample: with `--help` set but an invalid unit flag, the
source's unit check runs first, so the process exits with status 1, not
0. -/
theorem help_with_bad_unit_exits_1 :
    (mainModel "parsecs" true 4).exitCode = some 1 ∧
    (mainModel "parsecs" true 4).exitCode ≠ some 0 := by decide

/-- C9 (amended): for every invocation with `--help` set whose unit flag
is valid ("km" or "miles"), main prints usage to standard output and
exits with status 0 without performing any lookup. -/
theorem help_prints_usage_exits_0 (unit : String) (argc : Nat)
    (h : unit = "km" ∨ unit = "miles") :
    mainModel unit true argc = ⟨some 0, true, false⟩ := by
  rcases h with h | h <;> subst h <;> rfl

/-- Witness for the amended C9 at the default unit "km". -/
theorem help_prints_usage_exits_0_witness :
    (("km" : String) = "km" ∨ ("km" : String) = "miles") ∧
    mainModel "km" true 2 = ⟨some 0, true, false⟩ :=
  ⟨Or.inl rfl, help_prints_usage_exits_0 "km" 2 (Or.inl rfl)⟩

/-- Over the exact reals, the haversine intermediate lies in [0, 1] for all
inputs, so both square-root arguments of `geoDistance` are nonnegative;
only floating-point rounding of the unclamped sum can leave this range. -/
theorem hav_bounds_aux (u v w : ℝ) :
    0 ≤ Real.sin ((u - v) / 2) * Real.sin ((u - v) / 2) +
        Real.cos u * Real.cos v * Real.sin (w / 2) * Real.sin (w / 2) ∧
      Real.sin ((u - v) / 2) * Real.sin ((u - v) / 2) +
        Real.cos u * Real.cos v * Real.sin (w / 2) * Real.sin (w / 2) ≤ 1 := by
  have h1 : Real.sin ((u - v) / 2) ^ 2 = 1 / 2 - Real.cos (2 * ((u - v) / 2)) / 2 :=
    Real.sin_sq_eq_half_sub _
  rw [show 2 * ((u - v) / 2) = u - v by ring] at h1
  have h2 : Real.sin (w / 2) ^ 2 = 1 / 2 - Real.cos (2 * (w / 2)) / 2 :=
    Real.sin_sq_eq_half_sub _
  rw [show 2 * (w / 2) = w by ring] at h2
  have h3 : Real.cos (u - v) = Real.cos u * Real.cos v + Real.sin u * Real.sin v :=
    Real.cos_sub u v
  have h4 : Real.sin u ^ 2 + Real.cos u ^ 2 = 1 := Real.sin_sq_add_cos_sq u
  have h5 : Real.sin v ^ 2 + Real.cos v ^ 2 = 1 := Real.sin_sq_add_cos_sq v
  have h6 : -1 ≤ Real.cos w := Real.neg_one_le_cos w
  have h7 : Real.cos w ≤ 1 := Real.cos_le_one w
  have hxx : 0 ≤ 1 - Real.cos w ^ 2 := by nlinarith
  constructor
  · nlinarith [sq_nonneg (Real.sin u - Real.sin v),
      sq_nonneg (Real.cos u - Real.cos v * Real.cos w),
      mul_nonneg hxx (sq_nonneg (Real.cos v)), h1, h2, h3]
  · nlinarith [sq_nonneg (Real.sin u + Real.sin v),
      sq_nonneg (Real.cos u + Real.cos v * Real.cos w),
      mul_nonneg hxx (sq_nonneg (Real.cos v)), h1, h2, h3]

/-- `hav_a` lies in [0, 1] for every pair of locations (exact reals). -/
theorem hav_a_mem_unit (loc1 loc2 : Location) :
    0 ≤ hav_a loc1 loc2 ∧ hav_a loc1 loc2 ≤ 1 := by
  have h := hav_bounds_aux (loc1.Lat * Real.pi / 180) (loc2.Lat * Real.pi / 180)
    ((loc1.Lng - loc2.Lng) * Real.pi / 180)
  rw [show (loc1.Lat * Real.pi / 180 - loc2.Lat * Real.pi / 180) / 2 =
      (loc1.Lat - loc2.Lat) * Real.pi / 180 / 2 by ring] at h
  unfold hav_a Degree.GetRadians
  exact h
